import Mathlib

/-!
Verification of the multi-tenant session lifecycle manager and transcode
cache of the whatsberry server.

The JavaScript source is shallowly embedded: each `Map` becomes an
association list over `Nat` keys (JS `Map` update-in-place and delete
semantics are transcribed directly), timestamps (`Date.now()`) become
explicit `Nat` parameters, the opaque engine client becomes a small
record whose teardown outcome is a boolean, engine events (the
`whatsapp-web.js` callbacks registered in `initializeClient`) become an
inductive event type applied by a transition function transcribed from
the handlers, and the fallible external collaborators (engine start,
transcoder, file reads) are injected as explicit outcome parameters.
UUID generation is abstracted by a strictly increasing counter together
with the list of ids handed out so far, so that freshness claims are
statable.
-/

namespace Whatsberry

/-! ## Association-list model of a JS `Map` with `Nat` keys -/

/-- `Map.get`: first binding for the key, if any. -/
def mget {α : Type} : List (Nat × α) → Nat → Option α
  | [], _ => none
  | (k', v) :: t, k => if k' = k then some v else mget t k

/-- `Map.set`: replace the binding in place, or append a new one. -/
def mset {α : Type} : List (Nat × α) → Nat → α → List (Nat × α)
  | [], k, v => [(k, v)]
  | (k', v') :: t, k, v =>
    if k' = k then (k, v) :: t else (k', v') :: mset t k v

/-- `Map.delete`: drop every binding for the key. -/
def mdel {α : Type} : List (Nat × α) → Nat → List (Nat × α)
  | [], _ => []
  | (k', v') :: t, k => if k' = k then mdel t k else (k', v') :: mdel t k

/-- Keys of an association list. -/
def mkeys {α : Type} (m : List (Nat × α)) : List Nat := m.map Prod.fst

/-- Well-formedness of a JS `Map` image: each key bound at most once. -/
def MapWF {α : Type} (m : List (Nat × α)) : Prop := (mkeys m).Nodup

/-! ## Constants (src/config/constants.js) -/

/-- 24 hours, in milliseconds. -/
def SESSION_TIMEOUT : Nat := 24 * 60 * 60 * 1000

/-- 15 minutes, in milliseconds. -/
def UNFINISHED_SESSION_TIMEOUT : Nat := 15 * 60 * 1000

/-- 2 hours, in milliseconds. -/
def AUDIO_CONVERSION_TTL : Nat := 2 * 60 * 60 * 1000

/-- The disconnect reason string compared against in the disconnect handler. -/
def LOGOUT : String := "LOGOUT"

/-! ## Session records (SessionManager.js, WhatsAppClient.js) -/

/-- The opaque `whatsapp-web.js` client object owned by a session.  The
only behaviour of it the manager depends on in the verified code paths is
whether awaiting `client.destroy()` rejects, which we record as a field. -/
structure ClientHandle where
  destroyThrows : Bool
deriving Repr, DecidableEq

/-- One session record, as built by `getOrCreateSession` and mutated by the
client event handlers, `reconnectSession` and `destroySession`.  QR payloads,
device fingerprints and phone numbers are opaque data, modelled as `Nat`. -/
structure Session where
  client : Option ClientHandle
  isReady : Bool
  isAuthenticated : Bool
  qrCode : Option Nat
  userId : Nat
  deviceInfo : Nat
  lastActivity : Nat
  phoneNumber : Option Nat
  reconnecting : Bool
deriving Repr, DecidableEq

/-- The record literal created in `getOrCreateSession` (SessionManager.js,
lines 321-331); `now` stands for the `Date.now()` call there. -/
def newSessionRecord (userId deviceInfo now : Nat) : Session :=
  { client := none
    isReady := false
    isAuthenticated := false
    qrCode := none
    userId := userId
    deviceInfo := deviceInfo
    lastActivity := now
    phoneNumber := none
    reconnecting := false }

/-! ## Engine events (WhatsAppClient.js handlers) -/

/-- Events emitted by the engine client, as handled by the listeners
registered in `initializeClient`. -/
inductive Ev where
  | qr (payload : Nat)
  | ready (phone : Option Nat)
  | authenticated
  | loading (percent : Nat)
  | authFailure (msg : Nat)
  | disconnected (reason : String)
deriving Repr, DecidableEq

/-- Observable notifications published to the session's socket room, plus
the distinct possible anti-automation log line. -/
inductive Sig where
  | qrEmit (payload : Nat)
  | readyEmit
  | authenticatedEmit
  | loadingEmit
  | authFailureEmit
  | disconnectedEmit (reason : String)
  | antiBot
deriving Repr, DecidableEq

/-- Transcription of the event handlers installed in `initializeClient`
(WhatsAppClient.js).  `startTime` is the `Date.now()` captured when
`initializeClient` began, `now` the `Date.now()` at event delivery.
Returns the mutated session together with the notifications published. -/
def applyEv (startTime now : Nat) (s : Session) : Ev → Session × List Sig
  | .qr payload =>
    ({ s with qrCode := some payload }, [.qrEmit payload])
  | .ready phone =>
    if s.isReady then (s, [])
    else
      ({ s with isReady := true, qrCode := none,
                phoneNumber := if phone.isSome then phone else s.phoneNumber },
       [.readyEmit])
  | .authenticated =>
    if s.isAuthenticated then (s, [])
    else ({ s with isAuthenticated := true, lastActivity := now },
          [.authenticatedEmit])
  | .loading _ =>
    ({ s with lastActivity := now }, [.loadingEmit])
  | .authFailure _ =>
    ({ s with isAuthenticated := false }, [.authFailureEmit])
  | .disconnected reason =>
    let timeSinceReady : Option Nat :=
      if s.isReady then some (now - startTime) else none
    let s' := { s with isReady := false }
    let sigs :=
      match timeSinceReady with
      | some t =>
        if reason = LOGOUT ∧ t < 120000 then
          [Sig.disconnectedEmit reason, Sig.antiBot]
        else [Sig.disconnectedEmit reason]
      | none => [Sig.disconnectedEmit reason]
    (s', sigs)

/-- Deliver a list of timestamped events in order, accumulating the
published notifications. -/
def applyEvents (startTime : Nat) (s : Session) :
    List (Nat × Ev) → Session × List Sig
  | [] => (s, [])
  | (now, e) :: rest =>
    let r := applyEv startTime now s e
    let r' := applyEvents startTime r.1 rest
    (r'.1, r.2 ++ r'.2)

/-- Timestamp of the first `ready` event of a trace, i.e. the moment the
session became ready. -/
def readyTimeOf : List (Nat × Ev) → Option Nat
  | [] => none
  | (t, .ready _) :: _ => some t
  | _ :: rest => readyTimeOf rest

/-! ## Session manager registry state (SessionManager.js) -/

/-- The mutable state of a `SessionManager`: the two index maps, plus the
model of the UUID generator — `nextId` is the next fresh token and
`issued` the ids `generateSessionId` has handed out so far (UUID v4
collision-freedom is abstracted as strict freshness of the counter). -/
structure MState where
  sessions : List (Nat × Session)
  userSessions : List (Nat × Nat)
  nextId : Nat
  issued : List Nat
deriving Repr, DecidableEq

/-- Result of one `destroySession` call: the state after the call and
which of the side effects actually happened. -/
structure DestroyOut where
  st : MState
  teardownAttempted : Bool
  teardownFailed : Bool
  removed : Bool
  diskDeleteAttempted : Bool
  emittedDestroyed : Bool
deriving Repr, DecidableEq

/-- Transcription of `destroySession` (SessionManager.js lines 266-294).
The whole body sits in one `try` whose `catch` only logs, so a rejection
of `await session.client.destroy()` jumps straight to the logging catch:
the map deletions, the disk removal and the `session_destroyed` emit are
all skipped in that case, and nothing is rethrown to the caller (the
function is total here).  Disk removal has its own inner catch, so it is
always merely attempted. -/
def destroySession (st : MState) (sessionId : Nat) : DestroyOut :=
  match mget st.sessions sessionId with
  | none => ⟨st, false, false, false, false, false⟩
  | some s =>
    let proceed : DestroyOut :=
      ⟨{ st with sessions := mdel st.sessions sessionId
                 userSessions := mdel st.userSessions s.userId },
       s.client.isSome, false, true, true, true⟩
    match s.client with
    | some c => if c.destroyThrows then ⟨st, true, true, false, false, false⟩ else proceed
    | none => proceed

/-- First half of `getOrCreateSession` (SessionManager.js lines 304-317):
if the user already has a live session, destroy it and remove the old
user mapping.  The destroy is a fire-and-forget async call in the
source; its effects on the maps are modelled as completed, which
coincides with the at-return state whenever the old record has no engine
handle and otherwise only additionally removes the old record — none of
which affects the new bindings installed afterwards. -/
def supersedeExisting (st : MState) (userId : Nat) : MState :=
  match mget st.userSessions userId with
  | some existingSessionId =>
    if (mget st.sessions existingSessionId).isSome then
      let st' := (destroySession st existingSessionId).st
      { st' with userSessions := mdel st'.userSessions userId }
    else st
  | none => st

/-- Transcription of `getOrCreateSession` (SessionManager.js lines
303-338).  `now` stands for `Date.now()`; `generateSessionId()` is the
freshness counter. -/
def getOrCreateSession (st : MState) (userId deviceInfo now : Nat) :
    Nat × MState :=
  let st1 := supersedeExisting st userId
  let sessionId := st1.nextId
  (sessionId,
   { st1 with
       sessions := mset st1.sessions sessionId (newSessionRecord userId deviceInfo now)
       userSessions := mset st1.userSessions userId sessionId
       nextId := st1.nextId + 1
       issued := sessionId :: st1.issued })

/-- Transcription of `cleanupUnfinishedSessions` (SessionManager.js lines
72-88): sweep every tracked session and destroy the ones that are neither
ready nor authenticated and have been inactive longer than the
15-minute unfinished-session timeout. -/
def cleanupUnfinishedSessions (st : MState) (now : Nat) : MState :=
  (st.sessions).foldl
    (fun acc p =>
      if ¬p.2.isReady ∧ ¬p.2.isAuthenticated ∧
          now - p.2.lastActivity > UNFINISHED_SESSION_TIMEOUT then
        (destroySession acc p.1).st
      else acc)
    st

/-! ## Client initialization and reconnection
(WhatsAppClient.js `initializeClient`, SessionManager.js `reconnectSession`,
auth.routes.js `startSessionHandler`) -/

/-- Behaviour of one `initializeClient` / `initializeClientFallback` run,
injected as data: the client object it constructs, the engine events that
fire while `client.initialize()` is racing its timeout, and whether the
whole run ultimately rejects. -/
structure InitBehavior where
  handle : ClientHandle
  events : List (Nat × Ev)
  fails : Bool
deriving Repr, DecidableEq

/-- Transcription of the tail of `initializeClient` (WhatsAppClient.js
lines 221-253): the freshly built client is attached to the record, the
registered event handlers run as events arrive, and on failure the
cleanup nulls `session.client` and `session.qrCode` before rethrowing.
The returned boolean is `true` iff the run succeeded. -/
def runInit (startTime : Nat) (s : Session) (b : InitBehavior) :
    Session × Bool :=
  let s1 := { s with client := some b.handle }
  let s2 := (applyEvents startTime s1 b.events).1
  if b.fails then ({ s2 with client := none, qrCode := none }, false)
  else (s2, true)

/-- The steps a `reconnectSession` call performs, in order. -/
inductive RStep where
  | setFlag
  | teardownOld
  | resetState
  | emitReconnecting
  | runPrimary
  | runFallback
  | emitFailed
deriving Repr, DecidableEq

/-- Second half of `reconnectSession` (SessionManager.js lines 215-258):
starting from the already-reset record `s2`, attempt the primary
initializer, fall back to the secondary one, and clear the
`reconnecting` flag at every terminal outcome.  `pre` carries the steps
already performed before this phase. -/
def reconnectAttempt (s2 : Session) (pre : List RStep) (startTime : Nat)
    (primary fallback : Option InitBehavior) : Session × List RStep :=
  match primary with
  | none => ({ s2 with reconnecting := false }, pre)
  | some pb =>
    let r1 := runInit startTime s2 pb
    if r1.2 then ({ r1.1 with reconnecting := false }, pre ++ [.runPrimary])
    else
      match fallback with
      | none =>
        ({ r1.1 with reconnecting := false },
         pre ++ [.runPrimary, .emitFailed])
      | some fb =>
        let r2 := runInit startTime r1.1 fb
        if r2.2 then
          ({ r2.1 with reconnecting := false },
           pre ++ [.runPrimary, .runFallback])
        else
          ({ r2.1 with reconnecting := false },
           pre ++ [.runPrimary, .runFallback, .emitFailed])

/-- Transcription of `reconnectSession` (SessionManager.js lines 175-259)
at the level of one session record.  A record already marked
`reconnecting` is returned untouched with no steps performed.  Otherwise
the flag is raised, the stale client is torn down best-effort, the state
is reset (including `isAuthenticated`), subscribers are notified, and the
primary and fallback initializers are attempted in turn; every terminal
branch clears the flag.  `primary`/`fallback` are `none` when the
corresponding callback argument is null (its default). -/
def reconnectSession (s : Session) (startTime : Nat)
    (primary fallback : Option InitBehavior) : Session × List RStep :=
  if s.reconnecting then (s, [])
  else
    let s1 := { s with reconnecting := true }
    let pre : List RStep :=
      [.setFlag] ++ (if s1.client.isSome then [RStep.teardownOld] else []) ++
        [.resetState, .emitReconnecting]
    let s2 := { s1 with client := none, isReady := false,
                        isAuthenticated := false, qrCode := none }
    reconnectAttempt s2 pre startTime primary fallback

/-- Responses of the start-session route handler. -/
inductive StartResp where
  | notFound
  | superseded
  | alreadyStarted
  | started
  | startedFallback
  | failed
deriving Repr, DecidableEq

/-- Result of one `startSessionHandler` call: the state after the call,
the HTTP response, and how many engine initializations were invoked. -/
structure StartOut where
  st : MState
  resp : StartResp
  initCalls : Nat
deriving Repr, DecidableEq

/-- Transcription of `startSessionHandler` (auth.routes.js lines 59-124):
look the session up, reject stale (superseded) ids with 410, answer
"Session already started" without touching anything if a client is
already attached, and otherwise run the primary initializer with the
fallback initializer as second chance. -/
def startSessionHandler (st : MState) (sessionId startTime : Nat)
    (primary fallback : InitBehavior) : StartOut :=
  match mget st.sessions sessionId with
  | none => ⟨st, .notFound, 0⟩
  | some s =>
    if mget st.userSessions s.userId ≠ some sessionId then
      ⟨st, .superseded, 0⟩
    else if s.client.isSome then ⟨st, .alreadyStarted, 0⟩
    else
      let r1 := runInit startTime s primary
      if r1.2 then
        ⟨{ st with sessions := mset st.sessions sessionId r1.1 }, .started, 1⟩
      else
        let r2 := runInit startTime r1.1 fallback
        if r2.2 then
          ⟨{ st with sessions := mset st.sessions sessionId r2.1 },
           .startedFallback, 2⟩
        else
          ⟨{ st with sessions := mset st.sessions sessionId r2.1 },
           .failed, 2⟩

/-! ## Spec-level lifecycle state machine (spec section 4.2)

The source keeps no explicit `lifecycleState` field; the spec's states are
a function of the history of actions applied to a record.  `Act` collects
every mutation of a live record relevant to the engine handle: attaching
a client (`initializeClient` line 221), the engine event handlers, the
failed-initialization cleanup (lines 240-249), and the reset performed by
`reconnectSession` (SessionManager.js lines 193-205). -/

inductive Act where
  | attach (c : ClientHandle)
  | engine (now : Nat) (e : Ev)
  | initFail
  | reconnectReset
deriving Repr, DecidableEq

/-- Effect of an action on the session record, transcribed from the
source locations listed at `Act`. -/
def applyAct (startTime : Nat) (s : Session) : Act → Session
  | .attach c => { s with client := some c }
  | .engine now e => (applyEv startTime now s e).1
  | .initFail => { s with client := none, qrCode := none }
  | .reconnectReset =>
    { s with client := none, isReady := false, isAuthenticated := false,
             qrCode := none }

/-- The spec's lifecycle states (section 4.2); `DESTROYED` is the removal
of the record from the maps and so has no representative here. -/
inductive LState where
  | created
  | initializing
  | authenticated
  | ready
  | disconnected
deriving Repr, DecidableEq

/-- The spec's transition relation (section 4.2), made total: an action
with no transition listed for the current state leaves the state
unchanged.  A start attaches the engine (`CREATED → INITIALIZING`),
authentication success moves `INITIALIZING → AUTHENTICATED`, ready moves
any engine-attached state to `READY`, a disconnect moves `READY →
DISCONNECTED`, and fatal initialization failure or a reconnection reset
return the record to `CREATED`. -/
def specStep (ls : LState) : Act → LState
  | .attach _ => .initializing
  | .engine _ e =>
    match e, ls with
    | .authenticated, .initializing => .authenticated
    | .ready _, .created => .created
    | .ready _, _ => .ready
    | .disconnected _, .ready => .disconnected
    | _, _ => ls
  | .initFail => .created
  | .reconnectReset => .created

/-- Run a fresh record (and the spec state machine alongside it) through
a list of actions. -/
def runActs (startTime userId deviceInfo createdAt : Nat)
    (acts : List Act) : Session × LState :=
  acts.foldl (fun p a => (applyAct startTime p.1 a, specStep p.2 a))
    (newSessionRecord userId deviceInfo createdAt, .created)

/-- The spec states in which section 3 of the spec asserts the engine
handle is non-null. -/
def engineStatesSpec (ls : LState) : Bool :=
  match ls with
  | .initializing | .authenticated | .ready => true
  | _ => false

/-- The states in which the code actually keeps the handle attached: all
of them except `CREATED` (a disconnected record keeps its client until a
reconnect, init failure or destroy clears it). -/
def engineStatesActual (ls : LState) : Bool :=
  match ls with
  | .created => false
  | _ => true

/-! ## Transcode cache (AudioConverter.js) -/

/-- Files under the audio conversion directory, named after the media id
as in the source (`input_<id>.<ext>` / `output_<id>.mp3`). -/
inductive APath where
  | input (mediaId : Nat)
  | output (mediaId : Nat)
deriving Repr, DecidableEq

/-- One audio conversion cache entry (AudioConverter.js line 736). -/
structure CacheEntry where
  filePath : APath
  timestamp : Nat
  originalSize : Nat
  convertedSize : Nat
deriving Repr, DecidableEq

/-- The `AudioConverter` state that `convertAudioToMp3` consults. -/
structure AudioConverter where
  audioConversionCache : List (Nat × CacheEntry)
  audioConversionTTL : Nat
  ffmpegAvailable : Bool
deriving Repr, DecidableEq

/-- Errors with which `convertAudioToMp3` can reject. -/
inductive ConvError where
  | ffmpegUnavailable
  | cachedReadFailed
  | conversionFailed
deriving Repr, DecidableEq

instance {ε α : Type} [DecidableEq ε] [DecidableEq α] :
    DecidableEq (Except ε α) := fun a b =>
  match a, b with
  | .ok x, .ok y => decidable_of_iff (x = y) (by simp)
  | .error x, .error y => decidable_of_iff (x = y) (by simp)
  | .ok _, .error _ => isFalse (by simp)
  | .error _, .ok _ => isFalse (by simp)

/-- Result of one `convertAudioToMp3` call. -/
structure ConvertOut where
  result : Except ConvError (List Nat)
  conv : AudioConverter
  engineInvoked : Bool
  servedFromCache : Bool
deriving Repr, DecidableEq

/-- Transcription of `convertAudioToMp3` (AudioConverter.js lines
681-801).  `storage` models reads of the conversion directory,
`engineOk`/`engineOutput` the outcome of the FFmpeg run.  The FFmpeg
availability guard precedes the cache lookup; a cache entry is served
only while strictly younger than the TTL, by reading its backing file;
otherwise FFmpeg is invoked and, on success, the artifact is cached
under `output_<mediaId>.mp3` with the current timestamp. -/
def convertAudioToMp3 (ac : AudioConverter) (storage : APath → Option (List Nat))
    (now : Nat) (inputBuffer : List Nat) (mediaId : Nat)
    (engineOk : Bool) (engineOutput : List Nat) : ConvertOut :=
  if ¬ac.ffmpegAvailable then ⟨.error .ffmpegUnavailable, ac, false, false⟩
  else
    let newEntry : CacheEntry :=
      ⟨.output mediaId, now, inputBuffer.length, engineOutput.length⟩
    let newCache := mset ac.audioConversionCache mediaId newEntry
    let cachedState : AudioConverter :=
      { ac with audioConversionCache := newCache }
    let doConvert : ConvertOut :=
      if engineOk then ⟨.ok engineOutput, cachedState, true, false⟩
      else ⟨.error .conversionFailed, ac, true, false⟩
    match mget ac.audioConversionCache mediaId with
    | some cacheEntry =>
      if now - cacheEntry.timestamp < ac.audioConversionTTL then
        match storage cacheEntry.filePath with
        | some cachedBuffer => ⟨.ok cachedBuffer, ac, false, true⟩
        | none => ⟨.error .cachedReadFailed, ac, false, false⟩
      else doConvert
    | none => doConvert

/-! ## Auxiliary predicates and concrete inputs -/

/-- `true` iff awaiting `client.destroy()` on this (possibly absent)
client resolves, i.e. the teardown in `destroySession` does not throw. -/
def clientDestroyOk : Option ClientHandle → Bool
  | some c => !c.destroyThrows
  | none => true

/-- Does an event trace contain an `authenticated` event? -/
def hasAuthEvent : List (Nat × Ev) → Bool
  | [] => false
  | (_, .authenticated) :: _ => true
  | _ :: rest => hasAuthEvent rest

/-- An optional initializer behaviour that never re-authenticates. -/
def noAuthIn : Option InitBehavior → Bool
  | none => true
  | some b => !hasAuthEvent b.events

/-- Invariant of the freshness model of `generateSessionId`: every id
handed out so far, and every id indexed in the user map, is below the
counter. -/
def IdsFresh (st : MState) : Prop :=
  (∀ i ∈ st.issued, i < st.nextId) ∧ ∀ p ∈ st.userSessions, p.2 < st.nextId

/-- A session whose engine client rejects its `destroy()` call. -/
def throwingSession : Session :=
  { newSessionRecord 7 3 100 with client := some ⟨true⟩ }

/-- A session whose engine client tears down cleanly. -/
def quietSession : Session :=
  { newSessionRecord 8 4 200 with client := some ⟨false⟩ }

/-- Registry holding `throwingSession` under id 1. -/
def st3 : MState := ⟨[(1, throwingSession)], [(7, 1)], 2, [1]⟩

/-- Registry holding `quietSession` under id 1. -/
def st3w : MState := ⟨[(1, quietSession)], [(8, 1)], 2, [1]⟩

/-- Registry holding `throwingSession` under id 2. -/
def st4 : MState := ⟨[(2, throwingSession)], [(7, 2)], 3, [2]⟩

/-- Registry holding `quietSession` under id 2. -/
def st4w : MState := ⟨[(2, quietSession)], [(8, 2)], 3, [2]⟩

/-- Registry with one live session (id 0) for user 8, counter at 1. -/
def st1w : MState := ⟨[(0, quietSession)], [(8, 0)], 1, [0]⟩

/-- An action trace reaching the `DISCONNECTED` state: start, engine
authenticates, becomes ready, then the engine drops. -/
def acts2 : List Act :=
  [.attach ⟨false⟩, .engine 10 .authenticated, .engine 20 (.ready (some 7)),
   .engine 30 (.disconnected LOGOUT)]

/-- An authenticated, ready session not currently reconnecting. -/
def s6 : Session :=
  { newSessionRecord 5 5 0 with client := some ⟨false⟩,
                                isReady := true, isAuthenticated := true }

/-- An initializer run that succeeds immediately, before any engine event
(e.g. a QR is still pending) — no `authenticated` event fires. -/
def b6 : InitBehavior := ⟨⟨false⟩, [], false⟩

/-- A session record right after its client was attached at
initialization start (`startTime` 0). -/
def s7 : Session := { newSessionRecord 2 2 0 with client := some ⟨false⟩ }

/-- Initialization took 100 s to reach ready (slow sync), and the remote
end logs the session out 30 s after ready. -/
def trace7 : List (Nat × Ev) :=
  [(50000, .authenticated), (100000, .ready (some 7)),
   (130000, .disconnected LOGOUT)]

/-- Registry with one freshly created (engine-less) session, id 3, user 9. -/
def st8 : MState := ⟨[(3, newSessionRecord 9 1 50)], [(9, 3)], 4, [3]⟩

/-- A primary initializer behaviour that succeeds without events. -/
def b8 : InitBehavior := ⟨⟨false⟩, [], false⟩

/-- A fallback initializer behaviour that fails. -/
def b8f : InitBehavior := ⟨⟨false⟩, [], true⟩

/-- A converter whose cache holds media 1, converted at time 1000. -/
def ac9 : AudioConverter :=
  ⟨[(1, ⟨.output 1, 1000, 10, 5⟩)], AUDIO_CONVERSION_TTL, true⟩

/-- Conversion-directory contents: the cached artifact for media 1. -/
def storage9 : APath → Option (List Nat) :=
  fun p => if p = .output 1 then some [9, 9] else none

/-- An authenticated but long-idle session. -/
def authIdleSession : Session :=
  { newSessionRecord 6 2 0 with isAuthenticated := true }

/-- Registry holding `authIdleSession` under id 4. -/
def st10 : MState := ⟨[(4, authIdleSession)], [(6, 4)], 5, [4]⟩

/-! ## Lemmas about the map model -/

theorem mget_mset_self {α : Type} (m : List (Nat × α)) (k : Nat) (v : α) :
    mget (mset m k v) k = some v := by
  induction m with
  | nil => simp [mget, mset]
  | cons p t ih =>
    by_cases h : p.1 = k
    · simp [mset, h, mget]
    · simp [mset, h, mget, ih]

theorem mget_mset_ne {α : Type} (m : List (Nat × α)) {j k : Nat} (v : α)
    (h : j ≠ k) : mget (mset m j v) k = mget m k := by
  induction m with
  | nil => simp [mget, mset, h]
  | cons p t ih =>
    by_cases h' : p.1 = j
    · simp [mset, h', mget, h]
    · simp only [mset, h', if_false, mget]
      by_cases h'' : p.1 = k <;> simp [h'', ih]

theorem mget_mdel_self {α : Type} (m : List (Nat × α)) (k : Nat) :
    mget (mdel m k) k = none := by
  induction m with
  | nil => simp [mget, mdel]
  | cons p t ih =>
    by_cases h : p.1 = k
    · simp [mdel, h, ih]
    · simp [mdel, h, mget, ih]

theorem mget_mdel_ne {α : Type} (m : List (Nat × α)) {j k : Nat}
    (h : j ≠ k) : mget (mdel m j) k = mget m k := by
  induction m with
  | nil => simp [mdel]
  | cons p t ih =>
    by_cases h' : p.1 = j
    · have : p.1 ≠ k := fun hk => h (h' ▸ hk ▸ rfl)
      simp [mdel, h', mget, this, ih, h]
    · simp only [mdel, h', if_false, mget]
      by_cases h'' : p.1 = k <;> simp [h'', ih]

theorem mem_mdel {α : Type} {m : List (Nat × α)} {j : Nat} {p : Nat × α}
    (h : p ∈ mdel m j) : p ∈ m := by
  induction m with
  | nil => simp [mdel] at h
  | cons q t ih =>
    by_cases h' : q.1 = j
    · simp only [mdel, h', if_true] at h
      exact List.mem_cons_of_mem _ (ih h)
    · simp only [mdel, h', if_false, List.mem_cons] at h
      rcases h with h | h
      · exact h ▸ List.mem_cons_self _ _
      · exact List.mem_cons_of_mem _ (ih h)

theorem mem_mset {α : Type} {m : List (Nat × α)} {k : Nat} {v : α}
    {p : Nat × α} (h : p ∈ mset m k v) : p = (k, v) ∨ p ∈ m := by
  induction m with
  | nil => simpa [mset] using h
  | cons q t ih =>
    by_cases h' : q.1 = k
    · simp only [mset, h', if_true, List.mem_cons] at h
      rcases h with h | h
      · exact Or.inl h
      · exact Or.inr (List.mem_cons_of_mem _ h)
    · simp only [mset, h', if_false, List.mem_cons] at h
      rcases h with h | h
      · exact Or.inr (h ▸ List.mem_cons_self _ _)
      · rcases ih h with h | h
        · exact Or.inl h
        · exact Or.inr (List.mem_cons_of_mem _ h)

theorem mget_eq_some_mem {α : Type} {m : List (Nat × α)} {k : Nat} {v : α}
    (h : mget m k = some v) : (k, v) ∈ m := by
  induction m with
  | nil => simp [mget] at h
  | cons p t ih =>
    obtain ⟨a, b⟩ := p
    by_cases h' : a = k
    · simp only [mget, h', if_true, Option.some.injEq] at h
      subst h'
      subst h
      exact List.mem_cons_self _ _
    · simp only [mget, h', if_false] at h
      exact List.mem_cons_of_mem _ (ih h)

theorem mkeys_mdel_sublist {α : Type} (m : List (Nat × α)) (k : Nat) :
    (mkeys (mdel m k)).Sublist (mkeys m) := by
  induction m with
  | nil => simp [mdel, mkeys]
  | cons p t ih =>
    by_cases h : p.1 = k
    · simp only [mdel, h, if_true]
      exact ih.trans (by simp [mkeys])
    · simpa [mdel, h, mkeys] using ih

theorem MapWF_mdel {α : Type} {m : List (Nat × α)} (k : Nat)
    (h : MapWF m) : MapWF (mdel m k) :=
  (mkeys_mdel_sublist m k).nodup h

theorem mkeys_mset {α : Type} (m : List (Nat × α)) (k : Nat) (v : α) :
    mkeys (mset m k v) = mkeys m ∨
      mkeys (mset m k v) = mkeys m ++ [k] ∧ k ∉ mkeys m := by
  induction m with
  | nil => simp [mset, mkeys]
  | cons p t ih =>
    by_cases h : p.1 = k
    · left
      simp [mset, h, mkeys]
    · rcases ih with ih | ⟨ih1, ih2⟩
      · left
        simp only [mset, h, if_false, mkeys, List.map_cons, List.cons.injEq,
          true_and]
        simpa [mkeys] using ih
      · right
        constructor
        · simp [mset, h, mkeys] at ih1 ⊢
          exact ih1
        · simp only [mkeys, List.map_cons, List.mem_cons]
          rintro (h' | h')
          · exact h h'.symm
          · exact ih2 h'

theorem MapWF_mset {α : Type} {m : List (Nat × α)} (k : Nat) (v : α)
    (h : MapWF m) : MapWF (mset m k v) := by
  rcases mkeys_mset m k v with h' | ⟨h1, h2⟩
  · unfold MapWF
    rw [h']
    exact h
  · unfold MapWF
    rw [h1]
    simpa [List.nodup_append] using ⟨h, h2⟩

theorem MapWF_value_unique {α : Type} {m : List (Nat × α)} {k : Nat}
    {v1 v2 : α} (hWF : MapWF m) (h1 : (k, v1) ∈ m) (h2 : (k, v2) ∈ m) :
    v1 = v2 := by
  induction m with
  | nil => simp at h1
  | cons p t ih =>
    have hnd : p.1 ∉ mkeys t ∧ (mkeys t).Nodup := by
      simpa [MapWF, mkeys] using hWF
    simp only [List.mem_cons] at h1 h2
    rcases h1 with h1 | h1 <;> rcases h2 with h2 | h2
    · exact congrArg Prod.snd (h1.trans h2.symm)
    · exfalso
      have hk : k ∈ mkeys t := by
        simpa [mkeys] using List.mem_map_of_mem Prod.fst h2
      have hpk : p.1 = k := (congrArg Prod.fst h1).symm
      exact hnd.1 (hpk.symm ▸ hk)
    · exfalso
      have hk : k ∈ mkeys t := by
        simpa [mkeys] using List.mem_map_of_mem Prod.fst h1
      have hpk : p.1 = k := (congrArg Prod.fst h2).symm
      exact hnd.1 (hpk.symm ▸ hk)
    · exact ih hnd.2 h1 h2

/-! ## Structural lemmas about `destroySession` -/

theorem destroySession_nextId (st : MState) (sid : Nat) :
    (destroySession st sid).st.nextId = st.nextId := by
  unfold destroySession
  rcases h : mget st.sessions sid with _ | s
  · rfl
  · cases hcl : s.client with
    | none => simp [hcl]
    | some c => by_cases hc : c.destroyThrows <;> simp [hcl, hc]

theorem destroySession_issued (st : MState) (sid : Nat) :
    (destroySession st sid).st.issued = st.issued := by
  unfold destroySession
  rcases h : mget st.sessions sid with _ | s
  · rfl
  · cases hcl : s.client with
    | none => simp [hcl]
    | some c => by_cases hc : c.destroyThrows <;> simp [hcl, hc]

theorem destroySession_sessions_cases (st : MState) (sid : Nat) :
    (destroySession st sid).st.sessions = st.sessions ∨
      (destroySession st sid).st.sessions = mdel st.sessions sid := by
  unfold destroySession
  rcases h : mget st.sessions sid with _ | s
  · exact Or.inl rfl
  · cases hcl : s.client with
    | none => simp [hcl]
    | some c => by_cases hc : c.destroyThrows <;> simp [hcl, hc]

theorem destroySession_userSessions_cases (st : MState) (sid : Nat) :
    (destroySession st sid).st.userSessions = st.userSessions ∨
      ∃ u, (destroySession st sid).st.userSessions = mdel st.userSessions u := by
  unfold destroySession
  rcases h : mget st.sessions sid with _ | s
  · exact Or.inl rfl
  · cases hcl : s.client with
    | none =>
      simp only [hcl]
      exact Or.inr ⟨s.userId, rfl⟩
    | some c =>
      by_cases hc : c.destroyThrows
      · simp [hcl, hc]
      · simp only [hcl, hc]
        simp only [Bool.false_eq_true, if_false]
        exact Or.inr ⟨s.userId, rfl⟩

/-- A destroy of session `j` never loses a *different* session's binding:
the binding of any `sid` with `j ≠ sid` is intact afterwards. -/
theorem destroySession_preserves_other (st : MState) {sid j : Nat}
    (hne : j ≠ sid) (s : Session) (h : mget st.sessions sid = some s) :
    mget (destroySession st j).st.sessions sid = some s := by
  rcases destroySession_sessions_cases st j with hc | hc
  · rw [hc]
    exact h
  · rw [hc, mget_mdel_ne _ hne]
    exact h

/-! ## C3 and C4: destroySession effects and idempotence -/

/-- C3 counterexample: on a registered session whose engine teardown
throws, `destroySession` does NOT remove the session-id binding, does
NOT remove the user-id binding, does NOT attempt the disk deletion and
does NOT emit the terminal notification — the claim asserts all four
happen even when teardown throws.  The failure is only logged
(`teardownFailed`), not propagated. -/
theorem destroySession_throw_counterexample :
    clientDestroyOk throwingSession.client = false ∧
    mget (destroySession st3 1).st.sessions 1 = some throwingSession ∧
    mget (destroySession st3 1).st.userSessions 7 = some 1 ∧
    (destroySession st3 1).diskDeleteAttempted = false ∧
    (destroySession st3 1).emittedDestroyed = false ∧
    (destroySession st3 1).teardownFailed = true := by decide

/-- C3 (amended): for every registered session, when the engine teardown
does not throw (or there is no engine handle), `destroySession` removes
the session from the session-id map, removes the user-id mapping,
attempts the disk deletion and emits the terminal notification; when the
teardown throws, the failure is logged and not propagated, but the call
returns with the record still registered and without disk deletion or
notification. -/
theorem destroySession_effects (st : MState) (sid : Nat) (s : Session)
    (h : mget st.sessions sid = some s) :
    if clientDestroyOk s.client then
      (destroySession st sid).removed = true ∧
      mget (destroySession st sid).st.sessions sid = none ∧
      mget (destroySession st sid).st.userSessions s.userId = none ∧
      (destroySession st sid).diskDeleteAttempted = true ∧
      (destroySession st sid).emittedDestroyed = true
    else
      (destroySession st sid).teardownFailed = true ∧
      (destroySession st sid).st = st ∧
      (destroySession st sid).removed = false ∧
      (destroySession st sid).diskDeleteAttempted = false ∧
      (destroySession st sid).emittedDestroyed = false := by
  unfold destroySession
  rw [h]
  cases hcl : s.client with
  | none => simp [hcl, clientDestroyOk, mget_mdel_self]
  | some c =>
    by_cases hc : c.destroyThrows <;>
      simp [hcl, hc, clientDestroyOk, mget_mdel_self]

/-- Witness for C3 (amended): concrete evaluation on `st3w`, whose only
session has a cleanly-destroying client. -/
theorem destroySession_effects_witness :
    mget st3w.sessions 1 = some quietSession ∧
    (if clientDestroyOk quietSession.client then
       (destroySession st3w 1).removed = true ∧
       mget (destroySession st3w 1).st.sessions 1 = none ∧
       mget (destroySession st3w 1).st.userSessions quietSession.userId = none ∧
       (destroySession st3w 1).diskDeleteAttempted = true ∧
       (destroySession st3w 1).emittedDestroyed = true
     else
       (destroySession st3w 1).teardownFailed = true ∧
       (destroySession st3w 1).st = st3w ∧
       (destroySession st3w 1).removed = false ∧
       (destroySession st3w 1).diskDeleteAttempted = false ∧
       (destroySession st3w 1).emittedDestroyed = false) :=
  ⟨by decide, destroySession_effects st3w 1 quietSession (by decide)⟩

/-- When the teardown does not throw, the destroyed id no longer
resolves afterwards. -/
theorem destroySession_removes_of_ok (st : MState) (sid : Nat) (s : Session)
    (h : mget st.sessions sid = some s)
    (hok : clientDestroyOk s.client = true) :
    mget (destroySession st sid).st.sessions sid = none := by
  unfold destroySession
  rw [h]
  cases hcl : s.client with
  | none => simp [hcl, mget_mdel_self]
  | some c =>
    rw [hcl] at hok
    simp only [clientDestroyOk, Bool.not_eq_true'] at hok
    simp [hcl, hok, mget_mdel_self]

/-- Destroying an unregistered id is a complete no-op (SessionManager.js
line 268: the whole body is guarded by `if (session)`). -/
theorem destroySession_noop (st : MState) (sid : Nat)
    (h : mget st.sessions sid = none) :
    destroySession st sid = ⟨st, false, false, false, false, false⟩ := by
  unfold destroySession
  rw [h]

/-- C4 counterexample: if the first `destroySession` call's engine
teardown throws, the record stays registered, so the second call finds a
record and attempts the engine teardown again — the claim asserts the
second call finds no record and performs no side effects. -/
theorem destroySession_twice_counterexample :
    (mget (destroySession st4 2).st.sessions 2).isSome = true ∧
    (destroySession (destroySession st4 2).st 2).teardownAttempted = true := by
  decide

/-- C4 (amended): provided the first call's engine teardown does not
throw (or the session has no engine handle), `destroySession` is
idempotent: after the first call the id resolves to nothing, and the
second call performs no teardown, no removal, no disk deletion and no
notification, completing successfully with the state unchanged. -/
theorem destroySession_idempotent_on_success (st : MState) (sid : Nat)
    (s : Session) (h : mget st.sessions sid = some s)
    (hok : clientDestroyOk s.client = true) :
    mget (destroySession st sid).st.sessions sid = none ∧
    destroySession (destroySession st sid).st sid =
      ⟨(destroySession st sid).st, false, false, false, false, false⟩ := by
  have h1 := destroySession_removes_of_ok st sid s h hok
  exact ⟨h1, destroySession_noop _ _ h1⟩

/-- Witness for C4 (amended): concrete evaluation on `st4w`. -/
theorem destroySession_idempotent_witness :
    mget st4w.sessions 2 = some quietSession ∧
    clientDestroyOk quietSession.client = true ∧
    (mget (destroySession st4w 2).st.sessions 2 = none ∧
     destroySession (destroySession st4w 2).st 2 =
       ⟨(destroySession st4w 2).st, false, false, false, false, false⟩) :=
  ⟨by decide, by decide,
   destroySession_idempotent_on_success st4w 2 quietSession (by decide)
     (by decide)⟩

/-! ## C1: getOrCreateSession -/

theorem destroySession_userSessions_mem {st : MState} {sid : Nat}
    {p : Nat × Nat} (h : p ∈ (destroySession st sid).st.userSessions) :
    p ∈ st.userSessions := by
  rcases destroySession_userSessions_cases st sid with hc | ⟨u, hc⟩
  · rw [hc] at h
    exact h
  · rw [hc] at h
    exact mem_mdel h

theorem destroySession_userSessions_WF {st : MState} (sid : Nat)
    (h : MapWF st.userSessions) :
    MapWF (destroySession st sid).st.userSessions := by
  rcases destroySession_userSessions_cases st sid with hc | ⟨u, hc⟩
  · rw [hc]
    exact h
  · rw [hc]
    exact MapWF_mdel u h

theorem supersedeExisting_nextId (st : MState) (u : Nat) :
    (supersedeExisting st u).nextId = st.nextId := by
  unfold supersedeExisting
  rcases hm : mget st.userSessions u with _ | ex
  · rfl
  · by_cases h2 : (mget st.sessions ex).isSome
    · simp only [h2, if_true]
      exact destroySession_nextId st ex
    · simp [h2]

theorem supersedeExisting_issued (st : MState) (u : Nat) :
    (supersedeExisting st u).issued = st.issued := by
  unfold supersedeExisting
  rcases hm : mget st.userSessions u with _ | ex
  · rfl
  · by_cases h2 : (mget st.sessions ex).isSome
    · simp only [h2, if_true]
      exact destroySession_issued st ex
    · simp [h2]

theorem supersedeExisting_cases (st : MState) (u : Nat) :
    supersedeExisting st u = st ∨
    ∃ ex, supersedeExisting st u =
      { sessions := (destroySession st ex).st.sessions
        userSessions := mdel (destroySession st ex).st.userSessions u
        nextId := (destroySession st ex).st.nextId
        issued := (destroySession st ex).st.issued } := by
  unfold supersedeExisting
  rcases hm : mget st.userSessions u with _ | ex
  · exact Or.inl rfl
  · by_cases h2 : (mget st.sessions ex).isSome
    · exact Or.inr ⟨ex, by simp [h2]⟩
    · exact Or.inl (by simp [h2])

theorem mem_supersedeExisting_userSessions {st : MState} {u : Nat}
    {p : Nat × Nat} (h : p ∈ (supersedeExisting st u).userSessions) :
    p ∈ st.userSessions := by
  rcases supersedeExisting_cases st u with hc | ⟨ex, hc⟩
  · rw [hc] at h
    exact h
  · rw [hc] at h
    exact destroySession_userSessions_mem (mem_mdel h)

theorem MapWF_supersedeExisting_userSessions (st : MState) (u : Nat)
    (h : MapWF st.userSessions) :
    MapWF (supersedeExisting st u).userSessions := by
  rcases supersedeExisting_cases st u with hc | ⟨ex, hc⟩
  · rw [hc]
    exact h
  · rw [hc]
    exact MapWF_mdel u (destroySession_userSessions_WF ex h)

/-- C1: `getOrCreateSession` returns a freshly generated session id never
returned before, registers the new record in both the session-id map and
the user-id map before returning, replaces any previous mapping of the
user (the returned id differs from any previously current id), and the
user-id map keeps at most one current session id per user. -/
theorem getOrCreateSession_fresh_and_registered (st : MState)
    (u dev now : Nat) (hWF : MapWF st.userSessions) (hF : IdsFresh st) :
    (getOrCreateSession st u dev now).1 ∉ st.issued ∧
    mget (getOrCreateSession st u dev now).2.sessions
        (getOrCreateSession st u dev now).1 =
      some (newSessionRecord u dev now) ∧
    mget (getOrCreateSession st u dev now).2.userSessions u =
      some (getOrCreateSession st u dev now).1 ∧
    (∀ old, mget st.userSessions u = some old →
      old ≠ (getOrCreateSession st u dev now).1) ∧
    ∀ v1 v2, (u, v1) ∈ (getOrCreateSession st u dev now).2.userSessions →
      (u, v2) ∈ (getOrCreateSession st u dev now).2.userSessions →
        v1 = v2 := by
  have hnext : (supersedeExisting st u).nextId = st.nextId :=
    supersedeExisting_nextId st u
  have hids : (getOrCreateSession st u dev now).1 = st.nextId := hnext
  refine ⟨?_, ?_, ?_, ?_, ?_⟩
  · rw [hids]
    intro hmem
    exact absurd (hF.1 _ hmem) (lt_irrefl _)
  · show mget (mset (supersedeExisting st u).sessions
        (supersedeExisting st u).nextId (newSessionRecord u dev now))
        (supersedeExisting st u).nextId = some (newSessionRecord u dev now)
    exact mget_mset_self _ _ _
  · show mget (mset (supersedeExisting st u).userSessions u
        (supersedeExisting st u).nextId) u =
      some (supersedeExisting st u).nextId
    exact mget_mset_self _ _ _
  · intro old hold hcontra
    have hlt := hF.2 (u, old) (mget_eq_some_mem hold)
    rw [hcontra, hids] at hlt
    exact lt_irrefl _ hlt
  · intro v1 v2 h1 h2
    have hWF1 : MapWF (supersedeExisting st u).userSessions :=
      MapWF_supersedeExisting_userSessions st u hWF
    have hWF2 : MapWF (mset (supersedeExisting st u).userSessions u
        (supersedeExisting st u).nextId) := MapWF_mset _ _ hWF1
    exact MapWF_value_unique hWF2 h1 h2

/-- Witness for C1: concrete evaluation on `st1w`, where user 8 already
has a live session that gets superseded. -/
theorem getOrCreateSession_fresh_witness :
    MapWF st1w.userSessions ∧ IdsFresh st1w ∧
    (getOrCreateSession st1w 8 3 500).1 ∉ st1w.issued ∧
    mget (getOrCreateSession st1w 8 3 500).2.sessions
        (getOrCreateSession st1w 8 3 500).1 =
      some (newSessionRecord 8 3 500) ∧
    mget (getOrCreateSession st1w 8 3 500).2.userSessions 8 =
      some (getOrCreateSession st1w 8 3 500).1 := by
  have h := getOrCreateSession_fresh_and_registered st1w 8 3 500
    (by unfold MapWF mkeys; decide) (by unfold IdsFresh; decide)
  exact ⟨by unfold MapWF mkeys; decide, by unfold IdsFresh; decide,
    h.1, h.2.1, h.2.2.1⟩

/-! ## C2: engine handle vs. lifecycle state -/

/-- No engine event handler ever assigns `session.client`: the handlers in
`initializeClient` touch only the status flags, QR, phone number and
activity timestamp. -/
theorem applyEv_client (t now : Nat) (s : Session) (e : Ev) :
    ((applyEv t now s e).1).client = s.client := by
  cases e with
  | qr p => rfl
  | ready ph => by_cases h : s.isReady <;> simp [applyEv, h]
  | authenticated => by_cases h : s.isAuthenticated <;> simp [applyEv, h]
  | loading p => rfl
  | authFailure m => rfl
  | disconnected r => rfl

theorem runActs_aux (t : Nat) : ∀ (acts : List Act) (s : Session) (ls : LState),
    s.client.isSome = engineStatesActual ls →
    (acts.foldl (fun p a => (applyAct t p.1 a, specStep p.2 a)) (s, ls)).1.client.isSome
      = engineStatesActual
        (acts.foldl (fun p a => (applyAct t p.1 a, specStep p.2 a)) (s, ls)).2 := by
  intro acts
  induction acts with
  | nil =>
    intro s ls h
    simpa using h
  | cons a rest ih =>
    intro s ls h
    simp only [List.foldl_cons]
    apply ih
    cases a with
    | attach c => simp [applyAct, specStep, engineStatesActual]
    | initFail => simp [applyAct, specStep, engineStatesActual]
    | reconnectReset => simp [applyAct, specStep, engineStatesActual]
    | engine now e =>
      have hcl : ((applyEv t now s e).1).client = s.client :=
        applyEv_client t now s e
      cases e <;> cases ls <;>
        simp_all [applyAct, specStep, engineStatesActual]

/-- C2 counterexample: run a fresh record through attach, authenticated,
ready, disconnected.  The spec lifecycle state is `DISCONNECTED` — not
one of INITIALIZING/AUTHENTICATED/READY — yet the engine handle is still
non-null, because the `disconnected` handler only clears `isReady` and
never nulls `session.client`. -/
theorem engineHandle_disconnected_counterexample :
    (runActs 0 0 0 0 acts2).2 = LState.disconnected ∧
    (runActs 0 0 0 0 acts2).1.client.isSome = true ∧
    engineStatesSpec LState.disconnected = false := by decide

/-- C2 (amended): over every action trace from a freshly created record,
the engine handle is non-null iff the lifecycle state is not `CREATED`,
i.e. iff it is one of INITIALIZING, AUTHENTICATED, READY or DISCONNECTED.
In particular a `CREATED` record has a null handle, but a `DISCONNECTED`
record keeps its handle until a reconnect, init failure or destroy
clears it. -/
theorem engineHandle_iff_not_created (startTime u dev createdAt : Nat)
    (acts : List Act) :
    (runActs startTime u dev createdAt acts).1.client.isSome
      = engineStatesActual (runActs startTime u dev createdAt acts).2 := by
  unfold runActs
  exact runActs_aux startTime acts _ _
    (by simp [newSessionRecord, engineStatesActual])

/-! ## C5 and C6: reconnectSession -/

/-- Every handler other than `authenticated` leaves a cleared
authentication flag cleared. -/
theorem applyEv_auth_of_ne (t now : Nat) (s : Session) (e : Ev)
    (he : e ≠ .authenticated) (hs : s.isAuthenticated = false) :
    ((applyEv t now s e).1).isAuthenticated = false := by
  cases e with
  | authenticated => exact absurd rfl he
  | qr p => simpa [applyEv] using hs
  | ready ph => by_cases h : s.isReady <;> simp [applyEv, h, hs]
  | loading p => simpa [applyEv] using hs
  | authFailure m => simp [applyEv]
  | disconnected r => simpa [applyEv] using hs

theorem applyEvents_auth_false (t : Nat) :
    ∀ (evs : List (Nat × Ev)) (s : Session), hasAuthEvent evs = false →
      s.isAuthenticated = false →
      ((applyEvents t s evs).1).isAuthenticated = false := by
  intro evs
  induction evs with
  | nil =>
    intro s _ hs
    simpa [applyEvents] using hs
  | cons te rest ih =>
    obtain ⟨now, e⟩ := te
    intro s hno hs
    have hne : e ≠ .authenticated := by
      intro he
      subst he
      simp [hasAuthEvent] at hno
    have hrest : hasAuthEvent rest = false := by
      cases e <;> simp_all [hasAuthEvent]
    simp only [applyEvents]
    exact ih _ hrest (applyEv_auth_of_ne t now s e hne hs)

theorem runInit_auth_false (t : Nat) (s : Session) (b : InitBehavior)
    (hno : hasAuthEvent b.events = false) (hs : s.isAuthenticated = false) :
    ((runInit t s b).1).isAuthenticated = false := by
  unfold runInit
  have h2 := applyEvents_auth_false t b.events
    { s with client := some b.handle } hno (by simpa using hs)
  by_cases hf : b.fails <;> simp [hf, h2]

/-- Every terminal branch of the attempt phase clears the flag. -/
theorem reconnectAttempt_flag (s2 : Session) (pre : List RStep) (t : Nat)
    (primary fallback : Option InitBehavior) :
    ((reconnectAttempt s2 pre t primary fallback).1).reconnecting = false := by
  cases primary with
  | none => rfl
  | some pb =>
    unfold reconnectAttempt
    by_cases h1 : (runInit t s2 pb).2
    · simp [h1]
    · cases fallback with
      | none => simp [h1]
      | some fb =>
        by_cases h2 : (runInit t (runInit t s2 pb).1 fb).2 <;> simp [h1, h2]

/-- The attempt phase only appends steps after the ones already taken. -/
theorem reconnectAttempt_steps (s2 : Session) (pre : List RStep) (t : Nat)
    (primary fallback : Option InitBehavior) :
    ∃ rest, (reconnectAttempt s2 pre t primary fallback).2 = pre ++ rest := by
  cases primary with
  | none => exact ⟨[], by simp [reconnectAttempt]⟩
  | some pb =>
    unfold reconnectAttempt
    by_cases h1 : (runInit t s2 pb).2
    · exact ⟨[.runPrimary], by simp [h1]⟩
    · cases fallback with
      | none => exact ⟨[.runPrimary, .emitFailed], by simp [h1]⟩
      | some fb =>
        by_cases h2 : (runInit t (runInit t s2 pb).1 fb).2
        · exact ⟨[.runPrimary, .runFallback], by simp [h1, h2]⟩
        · exact ⟨[.runPrimary, .runFallback, .emitFailed], by simp [h1, h2]⟩

/-- C5: a `reconnectSession` call on a record whose `reconnecting` flag
is already set returns the record untouched and performs no step at all;
a call that does proceed raises the flag as its first step and leaves
`reconnecting` false at every terminal outcome — primary start success,
fallback success, or total failure (and likewise when no initializer was
supplied). -/
theorem reconnectSession_guard_and_flag (s : Session) (t : Nat)
    (primary fallback : Option InitBehavior) :
    if s.reconnecting then reconnectSession s t primary fallback = (s, [])
    else
      (reconnectSession s t primary fallback).2.head? = some RStep.setFlag ∧
      (reconnectSession s t primary fallback).1.reconnecting = false := by
  by_cases hr : s.reconnecting
  · simp [reconnectSession, hr]
  · rw [if_neg hr]
    unfold reconnectSession
    rw [if_neg hr]
    constructor
    · obtain ⟨rest, hrest⟩ := reconnectAttempt_steps
        { s with reconnecting := true, client := none, isReady := false,
                 isAuthenticated := false, qrCode := none }
        ([.setFlag] ++ (if s.client.isSome then [RStep.teardownOld] else []) ++
          [.resetState, .emitReconnecting]) t primary fallback
      rw [hrest]
      rfl
    · exact reconnectAttempt_flag _ _ t primary fallback

/-- C6 counterexample: an authenticated, ready record that goes through a
reconnection attempt (primary initializer succeeds with no engine events
yet) ends with `isAuthenticated = false`: `reconnectSession` resets the
flag (SessionManager.js line 204) rather than preserving it. -/
theorem reconnect_auth_counterexample :
    s6.isAuthenticated = true ∧ s6.reconnecting = false ∧
    ((reconnectSession s6 0 (some b6) none).1).isAuthenticated = false := by
  decide

/-- The attempt phase never sets `isAuthenticated` back to true unless an
`authenticated` event fires during one of the initializer runs. -/
theorem reconnectAttempt_auth (s2 : Session) (pre : List RStep) (t : Nat)
    (primary fallback : Option InitBehavior)
    (hs : s2.isAuthenticated = false)
    (hp : noAuthIn primary = true) (hf : noAuthIn fallback = true) :
    ((reconnectAttempt s2 pre t primary fallback).1).isAuthenticated = false := by
  cases primary with
  | none => exact hs
  | some pb =>
    have hpb : hasAuthEvent pb.events = false := by
      simpa [noAuthIn] using hp
    have h1 := runInit_auth_false t s2 pb hpb hs
    unfold reconnectAttempt
    by_cases hb1 : (runInit t s2 pb).2
    · simpa [hb1] using h1
    · cases fallback with
      | none => simpa [hb1] using h1
      | some fb =>
        have hfb : hasAuthEvent fb.events = false := by
          simpa [noAuthIn] using hf
        have h2 := runInit_auth_false t (runInit t s2 pb).1 fb hfb h1
        by_cases hb2 : (runInit t (runInit t s2 pb).1 fb).2 <;>
          simpa [hb1, hb2] using h2

/-- C6 (amended): a reconnection attempt resets `isAuthenticated` to
false along with the rest of the engine state; after the attempt the
flag is true only if the (re)initialization delivered a fresh
`authenticated` event — so whenever neither initializer behaviour emits
one, the record ends unauthenticated even if it was authenticated
before. -/
theorem reconnectSession_resets_auth (s : Session) (t : Nat)
    (primary fallback : Option InitBehavior)
    (hr : s.reconnecting = false)
    (hp : noAuthIn primary = true) (hf : noAuthIn fallback = true) :
    ((reconnectSession s t primary fallback).1).isAuthenticated = false := by
  unfold reconnectSession
  rw [hr]
  simp only [Bool.false_eq_true, if_false]
  exact reconnectAttempt_auth _ _ t primary fallback rfl hp hf

/-- Witness for C6 (amended): concrete evaluation on `s6`. -/
theorem reconnectSession_resets_auth_witness :
    s6.reconnecting = false ∧ noAuthIn (some b6) = true ∧
    noAuthIn (none : Option InitBehavior) = true ∧
    ((reconnectSession s6 0 (some b6) none).1).isAuthenticated = false :=
  ⟨by decide, by decide, by decide,
   reconnectSession_resets_auth s6 0 (some b6) none (by decide) (by decide)
     (by decide)⟩

/-! ## C7: disconnect handler timing -/

/-- C7: evaluation of the disconnect handler at the failing input.  The
session becomes ready 100 s after initialization started and the engine
emits `disconnected("LOGOUT")` 30 s after that.  `isReady` drops to
false and `isAuthenticated` stays true as claimed, but the possible
anti-automation signal is NOT raised even though only 30 s < 120 000 ms
elapsed since the session became ready: the handler's `timeSinceReady`
is computed as `Date.now() - startTime`, i.e. from initialization start
(130 000 ms ≥ 120 000 ms), not from the ready event. -/
theorem disconnect_logout_timing_divergence :
    ((applyEvents 0 s7 trace7).1).isReady = false ∧
    ((applyEvents 0 s7 trace7).1).isAuthenticated = true ∧
    Sig.antiBot ∉ (applyEvents 0 s7 trace7).2 ∧
    readyTimeOf trace7 = some 100000 ∧ 130000 - 100000 < 120000 := by
  decide

/-! ## C8: startSessionHandler idempotence -/

theorem applyEvents_client (t : Nat) :
    ∀ (evs : List (Nat × Ev)) (s : Session),
      ((applyEvents t s evs).1).client = s.client := by
  intro evs
  induction evs with
  | nil =>
    intro s
    rfl
  | cons te rest ih =>
    obtain ⟨now, e⟩ := te
    intro s
    simp only [applyEvents]
    rw [ih]
    exact applyEv_client t now s e

theorem applyEv_userId (t now : Nat) (s : Session) (e : Ev) :
    ((applyEv t now s e).1).userId = s.userId := by
  cases e with
  | qr p => rfl
  | ready ph => by_cases h : s.isReady <;> simp [applyEv, h]
  | authenticated => by_cases h : s.isAuthenticated <;> simp [applyEv, h]
  | loading p => rfl
  | authFailure m => rfl
  | disconnected r => rfl

theorem applyEvents_userId (t : Nat) :
    ∀ (evs : List (Nat × Ev)) (s : Session),
      ((applyEvents t s evs).1).userId = s.userId := by
  intro evs
  induction evs with
  | nil =>
    intro s
    rfl
  | cons te rest ih =>
    obtain ⟨now, e⟩ := te
    intro s
    simp only [applyEvents]
    rw [ih]
    exact applyEv_userId t now s e

theorem runInit_ok_client (t : Nat) (s : Session) (b : InitBehavior)
    (h : b.fails = false) :
    ((runInit t s b).1).client = some b.handle := by
  unfold runInit
  simp only [h, Bool.false_eq_true, if_false]
  rw [applyEvents_client]

theorem runInit_ok_succeeds (t : Nat) (s : Session) (b : InitBehavior)
    (h : b.fails = false) : (runInit t s b).2 = true := by
  unfold runInit
  simp [h]

theorem runInit_userId (t : Nat) (s : Session) (b : InitBehavior) :
    ((runInit t s b).1).userId = s.userId := by
  unfold runInit
  by_cases h : b.fails <;> simp [h, applyEvents_userId]

/-- C8: a start request on a session that already has an engine handle
attached answers "Session already started" without invoking any
initializer and without touching the state; and on an engine-less
current session whose primary initialization succeeds, two start
requests in immediate succession invoke the initializer exactly once —
the second request finds the attached handle and performs no further
initialization, so exactly one engine handle results. -/
theorem startSession_idempotent (st : MState) (sid t : Nat)
    (p f : InitBehavior) (s : Session)
    (h1 : mget st.sessions sid = some s)
    (h2 : mget st.userSessions s.userId = some sid)
    (h3 : p.fails = false) :
    if s.client.isSome then
      startSessionHandler st sid t p f = ⟨st, .alreadyStarted, 0⟩
    else
      (startSessionHandler st sid t p f).resp = .started ∧
      (startSessionHandler st sid t p f).initCalls = 1 ∧
      startSessionHandler (startSessionHandler st sid t p f).st sid t p f
        = ⟨(startSessionHandler st sid t p f).st, .alreadyStarted, 0⟩ := by
  by_cases hcl : s.client.isSome
  · rw [if_pos hcl]
    unfold startSessionHandler
    simp [h1, h2, hcl]
  · rw [if_neg hcl]
    have hr : (runInit t s p).2 = true := runInit_ok_succeeds t s p h3
    have hfirst : startSessionHandler st sid t p f =
        ⟨{ st with sessions := mset st.sessions sid (runInit t s p).1 },
         .started, 1⟩ := by
      unfold startSessionHandler
      simp [h1, h2, hcl, hr]
    have hs' : mget (mset st.sessions sid (runInit t s p).1) sid =
        some (runInit t s p).1 := mget_mset_self _ _ _
    have huid : ((runInit t s p).1).userId = s.userId := runInit_userId t s p
    have hcl' : ((runInit t s p).1).client.isSome = true := by
      rw [runInit_ok_client t s p h3]
      rfl
    refine ⟨by rw [hfirst], by rw [hfirst], ?_⟩
    rw [hfirst]
    unfold startSessionHandler
    simp [hs', huid, h2, hcl']

/-- Witness for C8: concrete evaluation on `st8`, whose session 3 has no
engine handle yet. -/
theorem startSession_idempotent_witness :
    mget st8.sessions 3 = some (newSessionRecord 9 1 50) ∧
    mget st8.userSessions (newSessionRecord 9 1 50).userId = some 3 ∧
    b8.fails = false ∧
    (if (newSessionRecord 9 1 50).client.isSome then
       startSessionHandler st8 3 0 b8 b8f = ⟨st8, .alreadyStarted, 0⟩
     else
       (startSessionHandler st8 3 0 b8 b8f).resp = .started ∧
       (startSessionHandler st8 3 0 b8 b8f).initCalls = 1 ∧
       startSessionHandler (startSessionHandler st8 3 0 b8 b8f).st 3 0 b8 b8f
         = ⟨(startSessionHandler st8 3 0 b8 b8f).st, .alreadyStarted, 0⟩) :=
  ⟨by decide, by decide, by decide,
   startSession_idempotent st8 3 0 b8 b8f (newSessionRecord 9 1 50)
     (by decide) (by decide) (by decide)⟩

/-! ## C9: transcode cache policy -/

/-- C9: with the transcoding engine available, a cache entry strictly
younger than the TTL is served by reading its stored artifact and the
engine is never invoked; an entry at or beyond the TTL is not served —
the engine is invoked for a fresh conversion — even though the entry's
backing file still exists in storage. -/
theorem convertAudioToMp3_cache_policy (ac : AudioConverter)
    (storage : APath → Option (List Nat)) (now : Nat) (input : List Nat)
    (mediaId : Nat) (engineOk : Bool) (engineOutput : List Nat)
    (e : CacheEntry) (buf : List Nat)
    (hAvail : ac.ffmpegAvailable = true)
    (hEntry : mget ac.audioConversionCache mediaId = some e)
    (hFile : storage e.filePath = some buf) :
    if now - e.timestamp < ac.audioConversionTTL then
      (convertAudioToMp3 ac storage now input mediaId engineOk
        engineOutput).result = .ok buf ∧
      (convertAudioToMp3 ac storage now input mediaId engineOk
        engineOutput).engineInvoked = false ∧
      (convertAudioToMp3 ac storage now input mediaId engineOk
        engineOutput).servedFromCache = true
    else
      (convertAudioToMp3 ac storage now input mediaId engineOk
        engineOutput).engineInvoked = true ∧
      (convertAudioToMp3 ac storage now input mediaId engineOk
        engineOutput).servedFromCache = false := by
  by_cases hT : now - e.timestamp < ac.audioConversionTTL
  · rw [if_pos hT]
    unfold convertAudioToMp3
    simp [hAvail, hEntry, hT, hFile]
  · rw [if_neg hT]
    unfold convertAudioToMp3
    by_cases hOk : engineOk <;> simp [hAvail, hEntry, hT, hOk]

/-- Witness for C9: concrete evaluation on `ac9`/`storage9` with a fresh
cache entry for media 1. -/
theorem convertAudioToMp3_cache_witness :
    ac9.ffmpegAvailable = true ∧
    mget ac9.audioConversionCache 1 =
      some ⟨APath.output 1, 1000, 10, 5⟩ ∧
    storage9 (APath.output 1) = some [9, 9] ∧
    (if 2000 - (⟨APath.output 1, 1000, 10, 5⟩ : CacheEntry).timestamp <
        ac9.audioConversionTTL then
       (convertAudioToMp3 ac9 storage9 2000 [1, 2] 1 true
         [5, 5]).result = .ok [9, 9] ∧
       (convertAudioToMp3 ac9 storage9 2000 [1, 2] 1 true
         [5, 5]).engineInvoked = false ∧
       (convertAudioToMp3 ac9 storage9 2000 [1, 2] 1 true
         [5, 5]).servedFromCache = true
     else
       (convertAudioToMp3 ac9 storage9 2000 [1, 2] 1 true
         [5, 5]).engineInvoked = true ∧
       (convertAudioToMp3 ac9 storage9 2000 [1, 2] 1 true
         [5, 5]).servedFromCache = false) :=
  ⟨by decide, by decide, by decide,
   convertAudioToMp3_cache_policy ac9 storage9 2000 [1, 2] 1 true [5, 5]
     ⟨APath.output 1, 1000, 10, 5⟩ [9, 9] (by decide) (by decide)
     (by decide)⟩

/-! ## C10: the unfinished-session sweep -/

theorem cleanup_fold_preserves (now : Nat) :
    ∀ (l : List (Nat × Session)) (acc : MState) (sid : Nat) (s : Session),
      mget acc.sessions sid = some s →
      (s.isReady = true ∨ s.isAuthenticated = true ∨
        ¬(now - s.lastActivity > UNFINISHED_SESSION_TIMEOUT)) →
      (∀ s', (sid, s') ∈ l → s' = s) →
      mget ((l.foldl (fun acc' p =>
        if ¬p.2.isReady ∧ ¬p.2.isAuthenticated ∧
            now - p.2.lastActivity > UNFINISHED_SESSION_TIMEOUT then
          (destroySession acc' p.1).st
        else acc') acc).sessions) sid = some s := by
  intro l
  induction l with
  | nil =>
    intro acc sid s h _ _
    simpa using h
  | cons p rest ih =>
    intro acc sid s h hcond hl
    simp only [List.foldl_cons]
    apply ih _ sid s ?_ hcond (fun s' hm => hl s' (List.mem_cons_of_mem _ hm))
    by_cases hc : ¬p.2.isReady ∧ ¬p.2.isAuthenticated ∧
        now - p.2.lastActivity > UNFINISHED_SESSION_TIMEOUT
    · rw [if_pos hc]
      by_cases hk : p.1 = sid
      · exfalso
        have hps : p.2 = s := by
          apply hl p.2
          have : (sid, p.2) = p := by
            rw [← hk]
          rw [this]
          exact List.mem_cons_self _ _
        rw [hps] at hc
        rcases hcond with hcond | hcond | hcond
        · exact hc.1 hcond
        · exact hc.2.1 hcond
        · exact hcond hc.2.2
      · exact destroySession_preserves_other acc hk s h
    · rw [if_neg hc]
      exact h

/-- C10: the unfinished-session sweep never destroys a session that is
ready, or authenticated, or whose last activity is within the 15-minute
unfinished-session timeout; such a session's record is still registered,
unchanged, after the sweep — in particular an authenticated or ready
session survives regardless of how long it has been idle. -/
theorem cleanupUnfinished_spares_active (st : MState) (now sid : Nat)
    (s : Session) (hWF : MapWF st.sessions)
    (h : mget st.sessions sid = some s)
    (hcond : s.isReady = true ∨ s.isAuthenticated = true ∨
      ¬(now - s.lastActivity > UNFINISHED_SESSION_TIMEOUT)) :
    mget (cleanupUnfinishedSessions st now).sessions sid = some s := by
  unfold cleanupUnfinishedSessions
  apply cleanup_fold_preserves now st.sessions st sid s h hcond
  intro s' hm
  exact MapWF_value_unique hWF hm (mget_eq_some_mem h)

/-- Witness for C10: the authenticated session of `st10` survives a
sweep run long after any timeout has elapsed. -/
theorem cleanupUnfinished_spares_active_witness :
    MapWF st10.sessions ∧
    mget st10.sessions 4 = some authIdleSession ∧
    (authIdleSession.isReady = true ∨ authIdleSession.isAuthenticated = true ∨
      ¬(1000000000 - authIdleSession.lastActivity >
        UNFINISHED_SESSION_TIMEOUT)) ∧
    mget (cleanupUnfinishedSessions st10 1000000000).sessions 4 =
      some authIdleSession :=
  ⟨by unfold MapWF mkeys; decide, by decide, by decide,
   cleanupUnfinished_spares_active st10 1000000000 4 authIdleSession
     (by unfold MapWF mkeys; decide) (by decide) (by decide)⟩
